import Mathlib

/-!
Shallow embedding of the authentication/session subsystem and the
message-streaming pipeline of the ProjectMIABackend repository
(`src/jwt_utils.py`, `src/security.py`, `src/access.py`,
`src/routers/auth.py`, `src/services/pubsub_service.py`,
`src/models.py`), together with theorems settling the specification
claims about them.

Conventions of the embedding:
* A signed JWT is modelled structurally: `jwt.encode(data, secret, "HS256")`
  becomes a record holding the payload together with the secret it was
  signed with; `jwt.decode(token, secret, algorithms, issuer)` succeeds
  exactly when the secrets agree, the `iss` claim equals the expected
  issuer and the token is unexpired (PyJWT verifies exactly signature,
  issuer and expiry here).  Time is `Nat` seconds.
* Python dict payload fields are `Option String`; Python truthiness of
  such a field (`if not user_id`) is `truthy` below (absent and empty
  string are both falsy).
* Database state is a record of the `shops` and `shop_members` tables as
  lists of rows; SQLAlchemy `.first()` / `scalar_one_or_none` on a query
  become `List.find?` over the rows.
-/

namespace MIA

/-- Settings relevant to the claims, from `src/config.py` (`jwt_secret`,
`jwt_issuer = "mia-core"`, `jwt_exp_minutes = 60`, `jwt_refresh_days = 7`). -/
structure Settings where
  jwt_secret : String
  jwt_issuer : String
  jwt_exp_minutes : Nat
  jwt_refresh_days : Nat
deriving DecidableEq, Repr

/-- The claim fields ever placed in a token payload by this code base:
subject fields `user_id`, `shop_id`, `role`, `provider`, plus the token
kind marker `typ`.  A field that is absent from the Python dict is
`none`. -/
structure JwtClaims where
  user_id : Option String := none
  shop_id : Option String := none
  role : Option String := none
  provider : Option String := none
  typ : Option String := none
deriving DecidableEq, Repr

/-- A structural model of an HS256-signed JWT: the payload claims plus
the registered claims `iss`, `iat`, `exp` added at signing time, and the
secret the token was signed with (standing in for the HMAC signature). -/
structure Jwt where
  claims : JwtClaims
  secret : String
  iss : String
  iat : Nat
  exp : Nat
deriving DecidableEq, Repr

/-- `create_access_token` (`src/jwt_utils.py` lines 9-17): spreads the
caller's payload and adds `iss`, `iat`, `exp = now + jwt_exp_minutes`.
Note that it adds NO `typ` claim; its `typ` is whatever the caller's
payload carried (all callers in the repository pass none). -/
def create_access_token (s : Settings) (payload : JwtClaims) (now : Nat) : Jwt :=
  { claims := payload
    secret := s.jwt_secret
    iss := s.jwt_issuer
    iat := now
    exp := now + s.jwt_exp_minutes * 60 }

/-- `create_refresh_token` (`src/jwt_utils.py` lines 20-29): like
`create_access_token` but with `exp = now + jwt_refresh_days` (in days)
and `typ = "refresh"` overriding the payload. -/
def create_refresh_token (s : Settings) (payload : JwtClaims) (now : Nat) : Jwt :=
  { claims := { payload with typ := some "refresh" }
    secret := s.jwt_secret
    iss := s.jwt_issuer
    iat := now
    exp := now + s.jwt_refresh_days * 24 * 60 * 60 }

/-- `jwt.decode(token, secret, algorithms=["HS256"], issuer=issuer)`:
succeeds returning the payload iff the signature checks (same secret),
the `iss` claim equals the expected issuer, and the token is unexpired. -/
def jwtDecode (t : Jwt) (secret iss : String) (now : Nat) : Option JwtClaims :=
  if t.secret = secret ∧ t.iss = iss ∧ now < t.exp then some t.claims else none

/-- Python truthiness of an optional string field (`if not user_id`):
falsy when the key is absent or the value is the empty string. -/
def truthy : Option String → Bool
  | none => false
  | some s => !s.isEmpty

/-- Decoded Firebase ID-token information, as extracted by
`get_current_user` / the Firebase branch of `get_auth_context`
(`src/security.py`): always has a `uid`, optionally email/name/picture. -/
structure FirebaseUser where
  uid : String
  email : Option String := none
  name : Option String := none
  picture : Option String := none
deriving DecidableEq, Repr

/-- The dict returned by `get_auth_context` (`src/security.py` lines
75-129): either the Firebase shape `{"auth": "firebase", ...}` or the
LINE shape `{"auth": "line", ...}`. -/
inductive AuthContext
  | firebase (uid : String) (email name picture : Option String)
  | line (user_id shop_id : String) (role provider : Option String)
deriving DecidableEq, Repr

/-- Outcome of `get_auth_context`: either an `AuthContext` dict or an
HTTP 401 `HTTPException`. -/
inductive AuthResult
  | ok (ctx : AuthContext)
  | unauthorized
deriving DecidableEq, Repr

/-- `get_auth_context` (`src/security.py` lines 75-129).  The outcome of
`auth.verify_id_token` (a network call to Firebase) is passed in as
`firebaseVerify`: `some fu` when primary verification succeeds, `none`
when it raises (any exception is swallowed and the code falls through).
The fallback decodes the bearer token against `jwt_secret`/`jwt_issuer`
and requires truthy `user_id` and `shop_id`; it checks neither `typ`
nor `provider`. -/
def get_auth_context (s : Settings) (firebaseVerify : Option FirebaseUser)
    (token : Jwt) (now : Nat) : AuthResult :=
  match firebaseVerify with
  | some fu => .ok (.firebase fu.uid fu.email fu.name fu.picture)
  | none =>
    match jwtDecode token s.jwt_secret s.jwt_issuer now with
    | none => .unauthorized
    | some payload =>
      if truthy payload.user_id && truthy payload.shop_id then
        .ok (.line (payload.user_id.getD "") (payload.shop_id.getD "")
              payload.role payload.provider)
      else .unauthorized

/-- A row of the `shops` table (`src/models.py` lines 13-25), restricted
to the columns the claims touch. -/
structure Shop where
  shop_id : String
  owner_uid : String
  name : String
deriving DecidableEq, Repr

/-- A row of the `shop_members` table (`src/models.py` lines 138-147).
`member_id` (a uuid4) is the ONLY primary key; `shop_id`, `user_id` are
merely indexed — the schema declares no unique constraint on
`(shop_id, user_id, auth_provider)`. -/
structure ShopMember where
  member_id : String
  shop_id : String
  user_id : String
  role : String
  auth_provider : String
deriving DecidableEq, Repr

/-- Database state: the two tables the authentication claims read and
write, each as its list of rows. -/
structure DB where
  shops : List Shop
  members : List ShopMember
deriving DecidableEq, Repr

/-- `select(Shop).where(Shop.shop_id == sid)` + `scalar_one_or_none`
(shop_id is the primary key, so at most one row matches). -/
def findShop (db : DB) (sid : String) : Option Shop :=
  db.shops.find? (fun sh => sh.shop_id = sid)

/-- Referential integrity of the `shop_members.shop_id` foreign key into
`shops.shop_id` (declared `foreign_key="shops.shop_id"` in the schema):
every member row references an existing shop. -/
def fkOk (db : DB) : Prop :=
  ∀ m ∈ db.members, (findShop db m.shop_id).isSome

instance (db : DB) : Decidable (fkOk db) := by
  unfold fkOk; infer_instance

/-- The duck-typed `user` dict handed to `user_can_access_shop`: the
code probes it only via `user.get("uid")` and `user.get("provider")`
(absent key ⇒ `None` ⇒ the `none` case here).  The dict produced by
`get_current_user` additionally carries email/name/picture, modelled
here too; it never carries a `provider` key. -/
structure UserDict where
  uid : Option String := none
  provider : Option String := none
  email : Option String := none
  name : Option String := none
  picture : Option String := none
deriving DecidableEq, Repr

/-- The user dict built by `get_current_user` (`src/security.py` lines
41-53): keys `uid`, `email`, `name`, `picture` — and no `provider`
key. -/
def get_current_user_dict (fu : FirebaseUser) : UserDict :=
  { uid := some fu.uid, email := fu.email, name := fu.name
    picture := fu.picture, provider := none }

/-- The `shop_members` row filter used by `user_can_access_shop`
(`src/access.py` lines 25-30): `.where(shop_id == shop.shop_id)
.where(user_id == user.get("uid")).where(auth_provider == "line")`.
When the dict has no uid, the SQL comparison `user_id == NULL` matches
no row. -/
def memberQueryMatches (sid : String) (uid : Option String) (m : ShopMember) : Bool :=
  m.shop_id = sid && some m.user_id = uid && m.auth_provider = "line"

/-- `user_can_access_shop` (`src/access.py` lines 9-39).  `shop` and
`user` are `Option`s because the code guards `if not shop or not user`
(a `None`/empty falsy argument ⇒ `False`).  The owner check is
`shop.owner_uid == user.get("uid")`; the membership query result is the
single matching row (`scalar_one_or_none`); `if roles:` means a `None`
or EMPTY role collection skips the role test. -/
def user_can_access_shop (db : DB) (shop : Option Shop) (user : Option UserDict)
    (roles : Option (List String)) : Bool :=
  match shop, user with
  | none, _ => false
  | _, none => false
  | some shop, some u =>
    if u.uid = some shop.owner_uid then true
    else if u.provider ≠ some "line" then false
    else
      match db.members.find? (memberQueryMatches shop.shop_id u.uid) with
      | none => false
      | some m =>
        match roles with
        | none => true
        | some rs => if rs.isEmpty then true else rs.contains m.role

/-- The token/cookie payload assembled by every login path in
`src/routers/auth.py`: `{"user_id": ..., "shop_id": ..., "role": ...,
"provider": ...}` from a membership row. -/
def memberPayload (m : ShopMember) : JwtClaims :=
  { user_id := some m.user_id, shop_id := some m.shop_id
    role := some m.role, provider := some m.auth_provider }

/-- The pair of artifacts of a successful login response: the access
token in the body, the refresh token set as a cookie, plus the
`shopId` / `shopName` / `role` fields of the JSON body. -/
structure TokenBundle where
  token : Jwt
  refreshToken : Jwt
  shopId : String
  shopName : String
  role : String
deriving DecidableEq, Repr

/-- Builds the success response of the login endpoints: access token
via `create_access_token`, refresh cookie via `create_refresh_token`,
both over the same membership payload. -/
def mkBundle (s : Settings) (m : ShopMember) (shop : Shop) (now : Nat) : TokenBundle :=
  { token := create_access_token s (memberPayload m) now
    refreshToken := create_refresh_token s (memberPayload m) now
    shopId := shop.shop_id
    shopName := shop.name
    role := m.role }

/-- Outcome of `POST /auth/line` (`auth_line_login`): 403
"No shop access", 404 "Shop not found", a `requiresSelection: true`
response listing `(shopId, shopName, role)` candidates with no tokens,
or an authenticated response carrying the token pair. -/
inductive LineLoginResult
  | noAccess
  | shopNotFound
  | selectionRequired (shops : List (String × String × String))
  | authenticated (bundle : TokenBundle)
deriving DecidableEq, Repr

/-- The joined query of `auth_line_login` / `auth_line_select`:
`select(ShopMember, Shop).join(Shop, Shop.shop_id == ShopMember.shop_id)
.where(user_id == uid).where(auth_provider == "line")` — an inner join,
so a member row only appears when its shop row exists. -/
def joinRows (db : DB) (uid : String) : List (ShopMember × Shop) :=
  db.members.filterMap (fun m =>
    if m.user_id = uid && m.auth_provider = "line" then
      (findShop db m.shop_id).map (fun sh => (m, sh))
    else none)

/-- Same join further restricted by `.where(shop_id == sid)`. -/
def joinRowsForShop (db : DB) (uid sid : String) : List (ShopMember × Shop) :=
  db.members.filterMap (fun m =>
    if m.user_id = uid && m.auth_provider = "line" && m.shop_id = sid then
      (findShop db m.shop_id).map (fun sh => (m, sh))
    else none)

/-- The fresh `ShopMember` row inserted by the auto-create branches:
`ShopMember(shop_id=..., user_id=..., role="owner",
auth_provider="line")`; `member_id` is a fresh uuid4, passed in as
`freshId`. -/
def newOwnerMember (sid uid freshId : String) : ShopMember :=
  { member_id := freshId, shop_id := sid, user_id := uid
    role := "owner", auth_provider := "line" }

/-- `auth_line_login` (`src/routers/auth.py` lines 188-302).  `shopId`
is the optional `shopId` of the request body; `freshId` the uuid4 a
created row would receive; returns the response together with the
database state after the request (the insert branch commits one new
row). -/
def auth_line_login (s : Settings) (db : DB) (lineUserId : String)
    (shopId : Option String) (freshId : String) (now : Nat) :
    LineLoginResult × DB :=
  match shopId with
  | some sid =>
    match (joinRowsForShop db lineUserId sid).head? with
    | some (m, shop) => (.authenticated (mkBundle s m shop now), db)
    | none =>
      match findShop db sid with
      | none => (.shopNotFound, db)
      | some shop =>
        let m := newOwnerMember shop.shop_id lineUserId freshId
        (.authenticated (mkBundle s m shop now),
         { db with members := db.members ++ [m] })
  | none =>
    let rows := joinRows db lineUserId
    match rows with
    | [] => (.noAccess, db)
    | (m, shop) :: _ =>
      if rows.length > 1 then
        (.selectionRequired (rows.map fun r => (r.2.shop_id, r.2.name, r.1.role)), db)
      else (.authenticated (mkBundle s m shop now), db)

/-- Outcome of `POST /auth/line/select` (`auth_line_select`). -/
inductive SelectResult
  | shopNotFound
  | authenticated (bundle : TokenBundle)
deriving DecidableEq, Repr

/-- `auth_line_select` (`src/routers/auth.py` lines 393-458), split
into a read snapshot and a write state to let concurrent interleavings
be expressed: all SELECTs run against `dbRead`, the INSERT commits into
`dbWrite`.  The sequential endpoint is the diagonal
`auth_line_select` below. -/
def auth_line_select_rw (s : Settings) (dbRead dbWrite : DB)
    (lineUserId shopId freshId : String) (now : Nat) : SelectResult × DB :=
  match (joinRowsForShop dbRead lineUserId shopId).head? with
  | some (m, shop) => (.authenticated (mkBundle s m shop now), dbWrite)
  | none =>
    match findShop dbRead shopId with
    | none => (.shopNotFound, dbWrite)
    | some shop =>
      let m := newOwnerMember shop.shop_id lineUserId freshId
      (.authenticated (mkBundle s m shop now),
       { dbWrite with members := dbWrite.members ++ [m] })

/-- `auth_line_select` run alone: its reads and its write act on the
same database state. -/
def auth_line_select (s : Settings) (db : DB)
    (lineUserId shopId freshId : String) (now : Nat) : SelectResult × DB :=
  auth_line_select_rw s db db lineUserId shopId freshId now

/-- Number of membership rows for a given `(shop_id, user_id)` with
`auth_provider = "line"` — the multiplicity the uniqueness invariant
speaks about. -/
def countMembers (db : DB) (sid uid : String) : Nat :=
  (db.members.filter (memberQueryMatches sid (some uid))).length

/-- Outcome of `POST /auth/refresh`: 401, or a fresh access token in
the body plus a fresh refresh token rewritten into the cookie. -/
inductive RefreshResult
  | unauthorized
  | ok (token : Jwt) (refreshToken : Jwt)
deriving DecidableEq, Repr

/-- The subject fields re-packed by `refresh_access_token`
(`payload.get` of the four subject keys — `typ` is dropped). -/
def refreshSubject (p : JwtClaims) : JwtClaims :=
  { user_id := p.user_id, shop_id := p.shop_id
    role := p.role, provider := p.provider }

/-- `refresh_access_token` (`src/routers/auth.py` lines 461-488):
missing cookie ⇒ 401; decode failure (signature / issuer / expiry) ⇒
401; `typ != "refresh"` ⇒ 401; otherwise a new access token and a new
refresh token are minted from the presented token's subject fields. -/
def refresh_access_token (s : Settings) (cookie : Option Jwt) (now : Nat) :
    RefreshResult :=
  match cookie with
  | none => .unauthorized
  | some t =>
    match jwtDecode t s.jwt_secret s.jwt_issuer now with
    | none => .unauthorized
    | some payload =>
      if payload.typ = some "refresh" then
        .ok (create_access_token s (refreshSubject payload) now)
          (create_refresh_token s (refreshSubject payload) now)
      else .unauthorized

/-- The decoded JSON body of a Pub/Sub message as the stream filter
reads it: `data.get("shop_id")`, `data.get("customer_id")`, plus the
rest of the payload (opaque here). -/
structure EventData where
  shop_id : Option String := none
  customer_id : Option String := none
  content : String := ""
deriving DecidableEq, Repr

/-- A raw message delivered by the subscriber: either its bytes fail
`json.loads` (`malformed`) or they parse to an `EventData`. -/
inductive RawMessage
  | malformed
  | data (d : EventData)
deriving DecidableEq, Repr

/-- The explicit acknowledgement decision taken for one delivered
message. -/
inductive AckAction
  | ack
  | nack
deriving DecidableEq, Repr

/-- `message_callback` inside `subscribe_filtered`
(`src/services/pubsub_service.py` lines 66-81) for one delivered
message: parse the JSON; if `shop_id` and `customer_id` both equal the
subscription's filter, hand the data to the downstream callback; then
`ack`.  Any exception on the way (parse failure, or the downstream
callback raising — `callbackFails`) skips the `ack` and `nack`s
instead.  Returns the event the downstream callback received (if any)
and the acknowledgement performed. -/
def message_callback (sid cid : String) (callbackFails : EventData → Bool) :
    RawMessage → Option EventData × AckAction
  | .malformed => (none, .nack)
  | .data d =>
    if d.shop_id = some sid ∧ d.customer_id = some cid then
      if callbackFails d then (some d, .nack) else (some d, .ack)
    else (none, .ack)

/-- The events that `stream_messages`
(`src/services/pubsub_service.py` lines 96-148) yields for a sequence
of bus deliveries: exactly what the filtered callback enqueues
(its downstream callback, `asyncio.create_task(queue.put(data))`,
does not raise, hence `callbackFails = false`), in delivery order. -/
def stream_messages_events (sid cid : String) (published : List RawMessage) :
    List EventData :=
  published.filterMap (fun msg => (message_callback sid cid (fun _ => false) msg).1)

/-- The consumer loop of `stream_messages` with an empty queue,
clocked in seconds from the stream's `start_time`: at elapsed time `t`
it first checks `now - start_time > timeout` and breaks; otherwise
`asyncio.wait_for(queue.get(), timeout=10.0)` blocks for the full
fixed 10-second poll bound (no event ever arrives), raises
`asyncio.TimeoutError`, and the loop continues at `t + 10`.  The
result is the elapsed time at which the generator ends normally. -/
def idleLoopFrom (timeout t : Nat) : Nat :=
  if t > timeout then t
  else idleLoopFrom timeout (t + 10)
termination_by timeout + 1 - t
decreasing_by omega

/-- Wall-clock seconds after which a stream with no published events
ends (normal completion of the generator, not an error), as a function
of the `timeout` argument (the idle timeout, default 300). -/
def streamIdleEnd (timeout : Nat) : Nat :=
  idleLoopFrom timeout 0

/-- The role condition exactly as claim C2 words it: the membership
row's "role is in the allowed-role set; when no role set is supplied,
any such membership row suffices". -/
def roleAllowed (roles : Option (List String)) (r : String) : Prop :=
  match roles with
  | none => True
  | some rs => r ∈ rs

instance (roles : Option (List String)) (r : String) : Decidable (roleAllowed roles r) :=
  match roles with
  | none => isTrue trivial
  | some rs => inferInstanceAs (Decidable (r ∈ rs))

/-- The authorization decision exactly as claim C2 words it — a
spec-side definition, to be compared against the code's
`user_can_access_shop`: the caller may access iff the shop's owner uid
equals the caller's uid, or the caller's provider is `line` and a
`ShopMember` row exists for `(shop_id, uid, line)` whose role is
allowed by the (optional) role set. -/
def specCanAccess (db : DB) (shop : Shop) (u : UserDict)
    (roles : Option (List String)) : Prop :=
  u.uid = some shop.owner_uid ∨
  (u.provider = some "line" ∧ ∃ m ∈ db.members,
    m.shop_id = shop.shop_id ∧ some m.user_id = u.uid ∧ m.auth_provider = "line" ∧
    roleAllowed roles m.role)

instance (db : DB) (shop : Shop) (u : UserDict) (roles : Option (List String)) :
    Decidable (specCanAccess db shop u roles) := by
  unfold specCanAccess; infer_instance

/-- The caller's LINE-provider membership rows (before the join with
`shops`): `user_id == uid` and `auth_provider == "line"`. -/
def lineMemberships (db : DB) (uid : String) : List ShopMember :=
  db.members.filter (fun m => m.user_id = uid && m.auth_provider = "line")

/-- Existence of a `(shop_id, user_id, line)` membership row, as claim
C5 words it. -/
def hasLineMembership (db : DB) (uid sid : String) : Prop :=
  ∃ m ∈ db.members, m.shop_id = sid ∧ m.user_id = uid ∧ m.auth_provider = "line"

instance (db : DB) (uid sid : String) : Decidable (hasLineMembership db uid sid) := by
  unfold hasLineMembership; infer_instance

/-! ### Concrete instances used to evaluate the definitions -/

/-- A concrete settings record (secret, issuer `mia-core`, 60-minute
access expiry, 7-day refresh expiry as in `src/config.py` defaults). -/
def egSettings : Settings :=
  { jwt_secret := "secret", jwt_issuer := "mia-core"
    jwt_exp_minutes := 60, jwt_refresh_days := 7 }

/-- A concrete subject payload as every login path builds it. -/
def egSubject : JwtClaims :=
  { user_id := some "U", shop_id := some "S"
    role := some "owner", provider := some "line" }

/-- A concrete shop row. -/
def egShop : Shop := { shop_id := "S", owner_uid := "OWN", name := "Shop S" }

/-- A second concrete shop row. -/
def egShop2 : Shop := { shop_id := "S2", owner_uid := "OWN2", name := "Shop S2" }

/-- A database holding one shop and no memberships. -/
def egDB0 : DB := { shops := [egShop], members := [] }

/-- A database where user `U` is a `staff`-role LINE member of shop `S`. -/
def egDBStaff : DB :=
  { shops := [egShop]
    members := [{ member_id := "m1", shop_id := "S", user_id := "U"
                  role := "staff", auth_provider := "line" }] }

/-- A database where user `U` is a LINE member of two shops. -/
def egDB2 : DB :=
  { shops := [egShop, egShop2]
    members := [{ member_id := "m1", shop_id := "S", user_id := "U"
                  role := "owner", auth_provider := "line" },
                { member_id := "m2", shop_id := "S2", user_id := "U"
                  role := "staff", auth_provider := "line" }] }

/-- A user dict as resolved for a LINE caller: uid `U`, provider `line`. -/
def egLineUser : UserDict := { uid := some "U", provider := some "line" }

/-- A concrete delivery sequence: a matching event, an event of the
same shop but another conversation, an event of another shop but the
same conversation, and a malformed payload. -/
def egPublished : List RawMessage :=
  [.data { shop_id := some "S", customer_id := some "C", content := "hello" },
   .data { shop_id := some "S", customer_id := some "C2", content := "other" },
   .data { shop_id := some "B", customer_id := some "C", content := "other shop" },
   .malformed]

/-! ### Helper lemmas -/

/-- One unfolding of the consumer loop never stops at or before the
idle timeout: the final elapsed time strictly exceeds `timeout`. -/
theorem idleLoopFrom_gt (timeout t : Nat) : timeout < idleLoopFrom timeout t := by
  rw [idleLoopFrom]
  split
  · omega
  · exact idleLoopFrom_gt timeout (t + 10)
termination_by timeout + 1 - t
decreasing_by omega

/-- The consumer loop overshoots the idle timeout by at most one full
10-second poll interval. -/
theorem idleLoopFrom_le (timeout t : Nat) (h : t ≤ timeout + 10) :
    idleLoopFrom timeout t ≤ timeout + 10 := by
  rw [idleLoopFrom]
  split
  · exact h
  · exact idleLoopFrom_le timeout (t + 10) (by omega)
termination_by timeout + 1 - t
decreasing_by omega

/-- When at most one element of a list satisfies the predicate,
`find?` returns exactly the satisfying members. -/
theorem find?_eq_some_of_unique {α : Type} (p : α → Bool) (l : List α)
    (hu : (l.filter p).length ≤ 1) (m : α) :
    l.find? p = some m ↔ m ∈ l ∧ p m = true := by
  constructor
  · intro h
    exact ⟨List.mem_of_find?_eq_some h, List.find?_some h⟩
  · rintro ⟨hmem, hp⟩
    have hm : m ∈ l.filter p := List.mem_filter.mpr ⟨hmem, hp⟩
    have hsome : (l.find? p).isSome := by
      rw [List.find?_isSome]
      exact ⟨m, hmem, hp⟩
    obtain ⟨m', hm'⟩ := Option.isSome_iff_exists.mp hsome
    have hm'mem : m' ∈ l.filter p :=
      List.mem_filter.mpr ⟨List.mem_of_find?_eq_some hm', List.find?_some hm'⟩
    match hl : l.filter p with
    | [] => rw [hl] at hm; cases hm
    | [x] =>
      rw [hl] at hm hm'mem
      have h1 : m = x := by simpa using hm
      have h2 : m' = x := by simpa using hm'mem
      rw [hm', h1, h2]
    | x :: y :: rest => rw [hl] at hu; simp at hu

/-- Unfolding of the refresh endpoint on a present cookie. -/
theorem refresh_access_token_some (s : Settings) (t : Jwt) (now : Nat) :
    refresh_access_token s (some t) now =
      match jwtDecode t s.jwt_secret s.jwt_issuer now with
      | none => .unauthorized
      | some payload =>
        if payload.typ = some "refresh" then
          .ok (create_access_token s (refreshSubject payload) now)
             (create_refresh_token s (refreshSubject payload) now)
        else .unauthorized := rfl

/-! ### Claim C1 — token-kind separation at the access guard -/

/-- C1 counterexample: the claim says the fallback of `get_auth_context`
"accepts a token only if it carries typ=access and provider=chat(line),
and rejects any refresh-typed token with 401".  Here a refresh token
(carrying `typ = "refresh"`) minted by `create_refresh_token` is
presented while primary verification fails, and it is ACCEPTED as a
LINE auth context, not rejected with 401. -/
theorem C1_counterexample :
    (create_refresh_token egSettings egSubject 0).claims.typ = some "refresh" ∧
    get_auth_context egSettings none (create_refresh_token egSettings egSubject 0) 5 =
      .ok (.line "U" "S" (some "owner") (some "line")) := by decide

/-- C1 amended: when primary-provider verification fails, the fallback
accepts exactly the tokens that are validly signed with the shared
secret, carry the expected issuer, are unexpired, and have truthy
`user_id` and `shop_id` — independently of `typ` and `provider` (so a
refresh-typed token IS accepted where an access token is expected).
The opposite direction of the separation does hold: the refresh
endpoint accepts exactly validly-signed unexpired tokens whose `typ`
is `"refresh"`, so an access token (which carries no `typ`) presented
there is rejected with 401. -/
theorem C1_kind_separation_amended (s : Settings) (t : Jwt) (now : Nat) :
    (get_auth_context s none t now ≠ .unauthorized ↔
      (t.secret = s.jwt_secret ∧ t.iss = s.jwt_issuer ∧ now < t.exp ∧
       truthy t.claims.user_id = true ∧ truthy t.claims.shop_id = true)) ∧
    (refresh_access_token s (some t) now ≠ .unauthorized ↔
      (t.secret = s.jwt_secret ∧ t.iss = s.jwt_issuer ∧ now < t.exp ∧
       t.claims.typ = some "refresh")) := by
  unfold get_auth_context refresh_access_token jwtDecode
  by_cases hd : t.secret = s.jwt_secret ∧ t.iss = s.jwt_issuer ∧ now < t.exp
  · simp only [if_pos hd]
    constructor
    · by_cases hu : truthy t.claims.user_id = true <;>
        by_cases hs2 : truthy t.claims.shop_id = true <;>
          simp [hu, hs2, hd.1, hd.2.1, hd.2.2]
    · by_cases ht : t.claims.typ = some "refresh" <;>
        simp [ht, hd.1, hd.2.1, hd.2.2]
  · refine ⟨?_, ?_⟩ <;>
    · simp only [if_neg hd]
      exact iff_of_false (fun h => h rfl) (fun hc => hd ⟨hc.1, hc.2.1, hc.2.2.1⟩)

/-! ### Claim C2 — the authorization decision -/

/-- Unfolding of the access decision on non-falsy shop and user
arguments. -/
theorem user_can_access_shop_some (db : DB) (shop : Shop) (u : UserDict)
    (roles : Option (List String)) :
    user_can_access_shop db (some shop) (some u) roles =
      (if u.uid = some shop.owner_uid then true
       else if u.provider ≠ some "line" then false
       else
         match db.members.find? (memberQueryMatches shop.shop_id u.uid) with
         | none => false
         | some m =>
           match roles with
           | none => true
           | some rs => if rs.isEmpty then true else rs.contains m.role) := rfl

/-- Characterisation of the boolean membership filter. -/
theorem memberQueryMatches_iff (sid : String) (uid : Option String) (m : ShopMember) :
    memberQueryMatches sid uid m = true ↔
      (m.shop_id = sid ∧ some m.user_id = uid ∧ m.auth_provider = "line") := by
  unfold memberQueryMatches
  simp [Bool.and_assoc]

/-- C2 counterexample: the claim quantifies over every optional
allowed-role set and requires the member's role to lie in the supplied
set.  With the EMPTY role set supplied, a staff member of the shop is
admitted by the code (`if roles:` treats an empty collection like
`None`), while the claim's predicate denies (no role lies in the empty
set) — so the claimed equivalence is false at this input. -/
theorem C2_counterexample :
    user_can_access_shop egDBStaff (some egShop) (some egLineUser) (some []) = true ∧
    ¬ specCanAccess egDBStaff egShop egLineUser (some []) := by decide

/-- C2 amended: under the invariant that at most one membership row
matches `(shop_id, uid, line)` (what `scalar_one_or_none` presumes),
`user_can_access_shop` returns true iff the shop's owner uid equals
the caller's uid, or the caller's provider is `line` and a matching
`ShopMember` row exists whose role is in the supplied role set — where
a role set that is absent OR EMPTY admits any matching row (Python
`if roles:`).  In particular, with allowed roles `{"owner"}` a
staff-role member is denied and an owner-role member admitted. -/
theorem C2_access_decision_amended (db : DB) (shop : Shop) (u : UserDict)
    (roles : Option (List String))
    (huniq : (db.members.filter (memberQueryMatches shop.shop_id u.uid)).length ≤ 1) :
    (user_can_access_shop db (some shop) (some u) roles = true ↔
      (u.uid = some shop.owner_uid ∨
       (u.provider = some "line" ∧ ∃ m ∈ db.members,
         m.shop_id = shop.shop_id ∧ some m.user_id = u.uid ∧ m.auth_provider = "line" ∧
         (∀ rs, roles = some rs → rs ≠ [] → m.role ∈ rs)))) := by
  rw [user_can_access_shop_some]
  by_cases howner : u.uid = some shop.owner_uid
  · simp [howner]
  · rw [if_neg howner]
    by_cases hprov : u.provider = some "line"
    · rw [if_neg (fun h => h hprov)]
      cases hfind : db.members.find? (memberQueryMatches shop.shop_id u.uid) with
      | none =>
        refine iff_of_false (by simp) ?_
        rintro (h | ⟨-, m, hm, h1, h2, h3, -⟩)
        · exact howner h
        · exact (List.find?_eq_none.mp hfind m hm)
            ((memberQueryMatches_iff _ _ _).mpr ⟨h1, h2, h3⟩)
      | some m =>
        have hmem := List.mem_of_find?_eq_some hfind
        have hmatch := (memberQueryMatches_iff _ _ _).mp (List.find?_some hfind)
        simp only []
        cases roles with
        | none =>
          refine iff_of_true rfl
            (Or.inr ⟨hprov, m, hmem, hmatch.1, hmatch.2.1, hmatch.2.2, ?_⟩)
          intro rs h
          cases h
        | some rs =>
          simp only []
          by_cases hr : rs.isEmpty
          · have hrs : rs = [] := List.isEmpty_iff.mp hr
            subst hrs
            refine iff_of_true (by simp)
              (Or.inr ⟨hprov, m, hmem, hmatch.1, hmatch.2.1, hmatch.2.2, ?_⟩)
            intro rs' h hne
            injection h with h'
            exact absurd h'.symm hne
          · rw [if_neg hr]
            constructor
            · intro hc
              refine Or.inr ⟨hprov, m, hmem, hmatch.1, hmatch.2.1, hmatch.2.2, ?_⟩
              intro rs' h hne
              injection h with h'
              subst h'
              simpa using hc
            · rintro (h | ⟨-, m', hm'mem, h1, h2, h3, hrole⟩)
              · exact absurd h howner
              · have hm'q : memberQueryMatches shop.shop_id u.uid m' = true :=
                  (memberQueryMatches_iff _ _ _).mpr ⟨h1, h2, h3⟩
                have heq : m' = m := by
                  have hfind' :=
                    (find?_eq_some_of_unique _ _ huniq m').mpr ⟨hm'mem, hm'q⟩
                  rw [hfind] at hfind'
                  exact (Option.some.inj hfind').symm
                subst heq
                have hin : m'.role ∈ rs :=
                  hrole rs rfl (fun hh => hr (by simp [hh]))
                simpa using hin
    · refine iff_of_false ?_ ?_
      · simp [if_pos (show u.provider ≠ some "line" from hprov)]
      · rintro (h | ⟨hp, -⟩)
        · exact howner h
        · exact hprov hp

/-- C2 witness: the amended decision at a concrete owner-role LINE
member with allowed roles `{"owner"}` — access granted. -/
theorem C2_access_decision_amended_witness :
    user_can_access_shop egDB2 (some egShop) (some egLineUser) (some ["owner"]) = true := by
  refine (C2_access_decision_amended egDB2 egShop egLineUser (some ["owner"])
    (by decide)).mpr ?_
  refine Or.inr ⟨rfl, ⟨"m1", "S", "U", "owner", "line"⟩, by decide, rfl, rfl, rfl, ?_⟩
  intro rs h hne
  injection h with h'
  subst h'
  simp

/-! ### Claim C3 — Firebase-derived user dicts never reach the
membership branch -/

/-- C3: a user dict produced by `get_current_user` has a `uid` and no
`provider` key, so `user_can_access_shop` grants access exactly when
the shop's `owner_uid` equals that uid — for every database and every
role set, the LINE-membership branch is unreachable (the result is
independent of the membership table). -/
theorem C3_firebase_user_owner_only (db : DB) (shop : Shop) (fu : FirebaseUser)
    (roles : Option (List String)) :
    user_can_access_shop db (some shop) (some (get_current_user_dict fu)) roles =
      (shop.owner_uid == fu.uid) := by
  unfold user_can_access_shop get_current_user_dict
  by_cases h : fu.uid = shop.owner_uid
  · simp [h]
  · have h' : shop.owner_uid ≠ fu.uid := fun hh => h hh.symm
    simp [h, h']

/-! ### Claim C4 — chat login without a shop hint -/

/-- Under foreign-key integrity the inner join of memberships with
shops loses no membership row: the member components of `joinRows` are
exactly `lineMemberships`. -/
theorem joinRows_fst (db : DB) (uid : String) (hFK : fkOk db) :
    (joinRows db uid).map Prod.fst = lineMemberships db uid := by
  unfold joinRows lineMemberships
  have haux : ∀ ms : List ShopMember, (∀ m ∈ ms, (findShop db m.shop_id).isSome) →
      (ms.filterMap (fun m =>
        if m.user_id = uid && m.auth_provider = "line" then
          (findShop db m.shop_id).map (fun sh => (m, sh))
        else none)).map Prod.fst
        = ms.filter (fun m => m.user_id = uid && m.auth_provider = "line") := by
    intro ms
    induction ms with
    | nil => intro _; rfl
    | cons a as ih =>
      intro h
      have hrest := ih (fun m hm => h m (List.mem_cons_of_mem a hm))
      by_cases hc : (a.user_id = uid && a.auth_provider = "line") = true
      · obtain ⟨sh, hsh⟩ :=
          Option.isSome_iff_exists.mp (h a (List.mem_cons_self a as))
        rw [List.filterMap_cons_some (by rw [if_pos hc, hsh]; rfl),
          List.map_cons, List.filter_cons, if_pos hc]
        exact congrArg (List.cons a) hrest
      · rw [List.filterMap_cons_none (by rw [if_neg hc]),
          List.filter_cons, if_neg hc]
        exact hrest
  exact haux db.members hFK

/-- C4: `POST /auth/line` without a `shopId` is a trichotomy on the
caller's LINE-provider memberships (under foreign-key integrity of
the membership table): zero memberships gives 403 `NoAccess`, no
tokens, database untouched; exactly one issues the access+refresh
pair for that shop directly; two or more return `SelectionRequired`
listing every joined `(shopId, shopName, role)` candidate with no
tokens issued and the database untouched. -/
theorem C4_login_trichotomy (s : Settings) (db : DB) (uid fid : String) (now : Nat)
    (hFK : fkOk db) :
    ((lineMemberships db uid).length = 0 →
        auth_line_login s db uid none fid now = (.noAccess, db)) ∧
    ((lineMemberships db uid).length = 1 →
        ∃ m shop, joinRows db uid = [(m, shop)] ∧
          auth_line_login s db uid none fid now =
            (.authenticated (mkBundle s m shop now), db)) ∧
    (2 ≤ (lineMemberships db uid).length →
        auth_line_login s db uid none fid now =
          (.selectionRequired ((joinRows db uid).map fun r =>
              (r.2.shop_id, r.2.name, r.1.role)), db)) := by
  have hlen : (joinRows db uid).length = (lineMemberships db uid).length := by
    rw [← joinRows_fst db uid hFK, List.length_map]
  refine ⟨?_, ?_, ?_⟩
  · intro h0
    have hnil : joinRows db uid = [] := by
      rw [← List.length_eq_zero]
      omega
    simp [auth_line_login, hnil]
  · intro h1
    have : (joinRows db uid).length = 1 := by omega
    obtain ⟨x, hx⟩ := List.length_eq_one.mp this
    obtain ⟨m, shop⟩ := x
    exact ⟨m, shop, hx, by simp [auth_line_login, hx]⟩
  · intro h2
    have hl : 1 < (joinRows db uid).length := by omega
    match hj : joinRows db uid with
    | [] => rw [hj] at hl; simp at hl
    | [x] => rw [hj] at hl; simp at hl
    | a :: b :: t =>
      rw [hj] at hl
      simp [auth_line_login, hj]

/-- C4 witness: a caller with two LINE memberships gets the selection
response with both candidates and no tokens. -/
theorem C4_login_trichotomy_witness :
    auth_line_login egSettings egDB2 "U" none "fresh" 0 =
      (.selectionRequired ((joinRows egDB2 "U").map fun r =>
          (r.2.shop_id, r.2.name, r.1.role)), egDB2) :=
  (C4_login_trichotomy egSettings egDB2 "U" "fresh" 0 (by decide)).2.2 (by decide)

/-! ### Claim C5 — chat login with a known shop -/

/-- When no membership row matches, the joined per-shop query is
empty. -/
theorem joinRowsForShop_eq_nil (db : DB) (uid sid : String)
    (h : ¬ hasLineMembership db uid sid) :
    joinRowsForShop db uid sid = [] := by
  unfold joinRowsForShop
  rw [List.filterMap_eq_nil_iff]
  intro m hm
  rw [if_neg]
  intro hc
  simp only [Bool.and_eq_true, decide_eq_true_eq] at hc
  exact h ⟨m, hm, hc.2, hc.1.1, hc.1.2⟩

/-- C5: `POST /auth/line` with a `shopId` (under foreign-key
integrity): if a LINE membership for `(shopId, lineUserId)` exists,
tokens are issued immediately from the first joined row and the
database is untouched; if no membership exists but the shop does,
exactly one new owner membership row is appended and tokens are
issued for it; if the shop does not exist, 404 `ShopNotFound` with no
row created and no tokens issued. -/
theorem C5_login_known_shop (s : Settings) (db : DB) (uid sid fid : String) (now : Nat)
    (hFK : fkOk db) :
    (hasLineMembership db uid sid →
        ∃ m shop, (joinRowsForShop db uid sid).head? = some (m, shop) ∧
          auth_line_login s db uid (some sid) fid now =
            (.authenticated (mkBundle s m shop now), db)) ∧
    (¬ hasLineMembership db uid sid → ∀ shop, findShop db sid = some shop →
        auth_line_login s db uid (some sid) fid now =
          (.authenticated (mkBundle s (newOwnerMember shop.shop_id uid fid) shop now),
           { db with members := db.members ++ [newOwnerMember shop.shop_id uid fid] })) ∧
    (¬ hasLineMembership db uid sid → findShop db sid = none →
        auth_line_login s db uid (some sid) fid now = (.shopNotFound, db)) := by
  refine ⟨?_, ?_, ?_⟩
  · rintro ⟨m, hm, h1, h2, h3⟩
    obtain ⟨sh, hsh⟩ := Option.isSome_iff_exists.mp (hFK m hm)
    have hmem : (m, sh) ∈ joinRowsForShop db uid sid := by
      unfold joinRowsForShop
      rw [List.mem_filterMap]
      refine ⟨m, hm, ?_⟩
      rw [if_pos (by simp [h1, h2, h3]), hsh]
      rfl
    match hj : joinRowsForShop db uid sid with
    | [] => rw [hj] at hmem; cases hmem
    | (m', shop') :: rest =>
      exact ⟨m', shop', rfl, by simp [auth_line_login, hj]⟩
  · intro hno shop hshop
    have hnil := joinRowsForShop_eq_nil db uid sid hno
    simp [auth_line_login, hnil, hshop]
  · intro hno hshop
    have hnil := joinRowsForShop_eq_nil db uid sid hno
    simp [auth_line_login, hnil, hshop]

/-- C5 witness: logging in against a shop id that does not exist
fails with 404 and leaves the database unchanged. -/
theorem C5_login_known_shop_witness :
    auth_line_login egSettings egDB0 "U" (some "NOPE") "fresh" 0 =
      (.shopNotFound, egDB0) :=
  (C5_login_known_shop egSettings egDB0 "U" "NOPE" "fresh" 0 (by decide)).2.2
    (by decide) (by decide)

/-! ### Claim C6 — refresh rotation -/

/-- C6: `POST /auth/refresh` — a missing cookie is 401; a cookie whose
signature, issuer or expiry check fails is 401; a validly decoded
token whose `typ` is not `"refresh"` (in particular an access token)
is 401, minting nothing; and a validly signed, unexpired,
refresh-typed cookie yields a fresh access token and a fresh refresh
token both minted at the request time from the same four subject
claims (`user_id`, `shop_id`, `role`, `provider`) as the presented
token. -/
theorem C6_refresh_rotation (s : Settings) (t : Jwt) (now : Nat) :
    (refresh_access_token s none now = .unauthorized) ∧
    (¬(t.secret = s.jwt_secret ∧ t.iss = s.jwt_issuer ∧ now < t.exp) →
        refresh_access_token s (some t) now = .unauthorized) ∧
    (t.claims.typ ≠ some "refresh" →
        refresh_access_token s (some t) now = .unauthorized) ∧
    (t.secret = s.jwt_secret → t.iss = s.jwt_issuer → now < t.exp →
     t.claims.typ = some "refresh" →
        refresh_access_token s (some t) now =
          .ok (create_access_token s (refreshSubject t.claims) now)
             (create_refresh_token s (refreshSubject t.claims) now)) ∧
    ((refreshSubject t.claims).user_id = t.claims.user_id ∧
     (refreshSubject t.claims).shop_id = t.claims.shop_id ∧
     (refreshSubject t.claims).role = t.claims.role ∧
     (refreshSubject t.claims).provider = t.claims.provider ∧
     (create_access_token s (refreshSubject t.claims) now).iat = now ∧
     (create_refresh_token s (refreshSubject t.claims) now).iat = now ∧
     (create_refresh_token s (refreshSubject t.claims) now).claims.typ = some "refresh") := by
  refine ⟨rfl, ?_, ?_, ?_, rfl, rfl, rfl, rfl, rfl, rfl, rfl⟩
  · intro hd
    unfold refresh_access_token jwtDecode
    simp [hd]
  · intro ht
    unfold refresh_access_token jwtDecode
    by_cases hd : t.secret = s.jwt_secret ∧ t.iss = s.jwt_issuer ∧ now < t.exp <;>
      simp [hd, ht]
  · intro h1 h2 h3 ht
    unfold refresh_access_token jwtDecode
    simp [h1, h2, h3, ht]

/-- C6 witness: the rotation branch evaluated at a concrete
refresh-typed cookie. -/
theorem C6_refresh_rotation_witness :
    refresh_access_token egSettings
        (some (create_refresh_token egSettings egSubject 0)) 5 =
      .ok (create_access_token egSettings
            (refreshSubject (create_refresh_token egSettings egSubject 0).claims) 5)
         (create_refresh_token egSettings
            (refreshSubject (create_refresh_token egSettings egSubject 0).claims) 5) :=
  (C6_refresh_rotation egSettings (create_refresh_token egSettings egSubject 0) 5).2.2.2.1
    (by decide) (by decide) (by decide) (by decide)

/-! ### Claim C7 — membership uniqueness and idempotent creation -/

/-- C7 counterexample: the claim asserts at most one `ShopMember` row
per `(shop_id, user_id, provider)` and idempotence "including under
concurrent duplicate selection".  Two concurrent `POST
/auth/line/select` calls for the same `(lineUserId, shopId)` that both
run their SELECT against the pre-insert snapshot (the modelled race)
then both take the create branch — the schema has no unique constraint
on `(shop_id, user_id, auth_provider)` to stop the second INSERT — and
the final state holds TWO rows for `("S", "U", line)`. -/
theorem C7_counterexample :
    countMembers
        (auth_line_select_rw egSettings egDB0
          (auth_line_select_rw egSettings egDB0 egDB0 "U" "S" "m1" 0).2
          "U" "S" "m2" 0).2 "S" "U" = 2 ∧
    ¬ countMembers
        (auth_line_select_rw egSettings egDB0
          (auth_line_select_rw egSettings egDB0 egDB0 "U" "S" "m1" 0).2
          "U" "S" "m2" 0).2 "S" "U" ≤ 1 := by decide

/-- C7 amended: sequential idempotence does hold — running
`auth_line_select` a second time with the same `(lineUserId, shopId)`
against the state left by the first call changes nothing (the second
call finds the row the first created or found, or fails on the same
missing shop), and a single call appends at most one matching row. -/
theorem C7_select_sequential_idempotent_amended (s : Settings) (db : DB)
    (uid sid fid1 fid2 : String) (now1 now2 : Nat) :
    (auth_line_select s (auth_line_select s db uid sid fid1 now1).2 uid sid fid2 now2).2 =
      (auth_line_select s db uid sid fid1 now1).2 ∧
    countMembers (auth_line_select s db uid sid fid1 now1).2 sid uid ≤
      countMembers db sid uid + 1 := by
  unfold auth_line_select auth_line_select_rw
  cases hj : (joinRowsForShop db uid sid).head? with
  | some x =>
    obtain ⟨m, shop⟩ := x
    refine ⟨by simp [hj], ?_⟩
    simp only [hj]
    exact Nat.le_succ _
  | none =>
    cases hs2 : findShop db sid with
    | none =>
      refine ⟨by simp [hj, hs2], ?_⟩
      simp only [hj, hs2]
      exact Nat.le_succ _
    | some shop =>
      have hsid : shop.shop_id = sid := by
        have h := List.find?_some hs2
        simpa using h
      have hshop1 : findShop
          { db with members := db.members ++ [newOwnerMember shop.shop_id uid fid1] }
          (newOwnerMember shop.shop_id uid fid1).shop_id = some shop := by
        show findShop db shop.shop_id = some shop
        rw [hsid]
        exact hs2
      have hcond : ((newOwnerMember shop.shop_id uid fid1).user_id = uid &&
          (newOwnerMember shop.shop_id uid fid1).auth_provider = "line" &&
          (newOwnerMember shop.shop_id uid fid1).shop_id = sid) = true := by
        simp [newOwnerMember, hsid]
      have hmem2 : (newOwnerMember shop.shop_id uid fid1, shop) ∈
          joinRowsForShop
            { db with members := db.members ++ [newOwnerMember shop.shop_id uid fid1] }
            uid sid := by
        unfold joinRowsForShop
        rw [List.mem_filterMap]
        refine ⟨newOwnerMember shop.shop_id uid fid1, by simp, ?_⟩
        rw [if_pos hcond, hshop1]
        rfl
      have hne : joinRowsForShop
          { db with members := db.members ++ [newOwnerMember shop.shop_id uid fid1] }
          uid sid ≠ [] := by
        intro hnil
        rw [hnil] at hmem2
        cases hmem2
      cases hj2 : (joinRowsForShop
          { db with members := db.members ++ [newOwnerMember shop.shop_id uid fid1] }
          uid sid).head? with
      | none => exact absurd (List.head?_eq_none_iff.mp hj2) hne
      | some y =>
        obtain ⟨m2, shop2⟩ := y
        refine ⟨by simp [hj, hs2, hj2], ?_⟩
        simp only [hj, hs2]
        unfold countMembers
        rw [show ({ db with
              members := db.members ++ [newOwnerMember shop.shop_id uid fid1] } : DB).members
            = db.members ++ [newOwnerMember shop.shop_id uid fid1] from rfl]
        rw [List.filter_append, List.length_append]
        have hle : (List.filter (memberQueryMatches sid (some uid))
            [newOwnerMember shop.shop_id uid fid1]).length ≤ 1 :=
          List.length_filter_le _ _
        omega

/-! ### Claim C8 — stream filtering and acknowledgement -/

/-- Unfolding of the subscription callback on a well-formed
delivery. -/
theorem message_callback_data (sid cid : String) (callbackFails : EventData → Bool)
    (d : EventData) :
    message_callback sid cid callbackFails (.data d) =
      if d.shop_id = some sid ∧ d.customer_id = some cid then
        if callbackFails d then (some d, .nack) else (some d, .ack)
      else (none, .ack) := rfl

/-- C8: for every subscription filter `(sid, cid)` and every sequence
of bus deliveries, (1) every event the stream yields carries exactly
that shop id and that conversation/customer id; (2) an event for a
different conversation in the same shop, or the same conversation in a
different shop, is never yielded; (3) the callback negative-
acknowledges exactly the messages whose processing fails (JSON parse
failure, or the downstream callback raising) — every other inspected
message is acknowledged whether it matched or not. -/
theorem C8_stream_filtering (sid cid : String) (published : List RawMessage)
    (callbackFails : EventData → Bool) :
    (∀ d ∈ stream_messages_events sid cid published,
        d.shop_id = some sid ∧ d.customer_id = some cid) ∧
    (∀ d : EventData, d.shop_id ≠ some sid ∨ d.customer_id ≠ some cid →
        d ∉ stream_messages_events sid cid published) ∧
    (∀ msg : RawMessage,
        ((message_callback sid cid callbackFails msg).2 = .nack ↔
          (msg = .malformed ∨ ∃ d, msg = .data d ∧ d.shop_id = some sid ∧
            d.customer_id = some cid ∧ callbackFails d = true))) := by
  have h1 : ∀ d ∈ stream_messages_events sid cid published,
      d.shop_id = some sid ∧ d.customer_id = some cid := by
    intro d hd
    unfold stream_messages_events at hd
    rw [List.mem_filterMap] at hd
    obtain ⟨msg, -, hmsg⟩ := hd
    cases msg with
    | malformed => simp [message_callback] at hmsg
    | data d' =>
      by_cases hm : d'.shop_id = some sid ∧ d'.customer_id = some cid
      · simp only [message_callback, if_pos hm] at hmsg
        simp at hmsg
        subst hmsg
        exact hm
      · simp only [message_callback, if_neg hm] at hmsg
        simp at hmsg
  refine ⟨h1, ?_, ?_⟩
  · intro d hor hdmem
    have hd := h1 d hdmem
    rcases hor with h | h
    · exact h hd.1
    · exact h hd.2
  · intro msg
    cases msg with
    | malformed => exact iff_of_true rfl (Or.inl rfl)
    | data d =>
      by_cases hm : d.shop_id = some sid ∧ d.customer_id = some cid
      · by_cases hf : callbackFails d = true
        · refine iff_of_true ?_ (Or.inr ⟨d, rfl, hm.1, hm.2, hf⟩)
          rw [message_callback_data, if_pos hm, if_pos hf]
        · refine iff_of_false ?_ ?_
          · rw [message_callback_data, if_pos hm, if_neg hf]
            simp
          · rintro (h | ⟨d', heq, -, -, hf'⟩)
            · cases h
            · injection heq with h'
              subst h'
              exact hf hf'
      · refine iff_of_false ?_ ?_
        · rw [message_callback_data, if_neg hm]
          simp
        · rintro (h | ⟨d', heq, hs1, hs2, -⟩)
          · cases h
          · injection heq with h'
            subst h'
            exact hm ⟨hs1, hs2⟩

/-- C8 witness: with events published for the requested conversation,
another conversation of the same shop, another shop, and one malformed
delivery, the mismatched event is not yielded by the stream. -/
theorem C8_stream_filtering_witness :
    ({ shop_id := some "S", customer_id := some "C2", content := "other" } : EventData) ∉
      stream_messages_events "S" "C" egPublished :=
  (C8_stream_filtering "S" "C" egPublished (fun _ => false)).2.1 _ (by decide)

/-! ### Claim C9 — stream idle timeout -/

/-- C9 counterexample: the claim says a stream with `idle_timeout = 1s`
and no published events ends close to 1s because each individual wait
is bounded by a value shorter than the idle timeout.  In the code the
per-wait bound is the fixed constant `10.0` seconds, so with
`timeout = 1` the generator ends only at 10 seconds — not within any
"close to 1s" window (not even within 2s), and the per-wait bound 10
is not shorter than the idle timeout 1. -/
theorem C9_counterexample :
    streamIdleEnd 1 = 10 ∧ ¬ streamIdleEnd 1 ≤ 2 ∧ ¬ (10 < 1) := by
  have h : streamIdleEnd 1 = 10 := by
    unfold streamIdleEnd
    rw [idleLoopFrom]; norm_num
    rw [idleLoopFrom]; norm_num
  refine ⟨h, by rw [h]; omega, by omega⟩

/-- C9 amended: a stream with no published events terminates normally
(the loop provably ends, yielding a final elapsed time rather than an
error), strictly after the idle timeout and within the idle timeout
plus one full fixed 10-second poll interval — the per-wait bound is
the constant 10 s, which is NOT in general shorter than the idle
timeout, so for small timeouts (e.g. 1 s) the stream ends near 10 s
rather than near the timeout. -/
theorem C9_idle_end_amended (timeout : Nat) :
    timeout < streamIdleEnd timeout ∧ streamIdleEnd timeout ≤ timeout + 10 :=
  ⟨idleLoopFrom_gt timeout 0, idleLoopFrom_le timeout 0 (by omega)⟩

/-! ### Claim C10 — codec round trip and kind check -/

/-- C10 counterexample: the claim says verifying a token against a
different expected kind fails with `WrongKind`.  Issuing with kind
`refresh` and verifying on the access path (`get_auth_context`
fallback, the code's access-token verifier) does NOT fail: the token
is accepted. -/
theorem C10_counterexample :
    get_auth_context egSettings none (create_refresh_token egSettings egSubject 0) 5 ≠
      .unauthorized := by decide

/-- C10 amended: the round trip holds — an access-issued token
verified on the access path returns the original subject fields
unchanged, and a refresh-issued token presented to the refresh
verifier is accepted and re-issues from the same subject fields.  The
wrong-kind half holds only in one direction: an access-kind token at
the refresh verifier fails, but a refresh-kind token at the access
verifier is accepted (the access path performs no kind check at
all). -/
theorem C10_roundtrip_amended (s : Settings) (p : JwtClaims) (now t : Nat)
    (hu : truthy p.user_id = true) (hs : truthy p.shop_id = true)
    (hexpA : t < now + s.jwt_exp_minutes * 60)
    (hexpR : t < now + s.jwt_refresh_days * 24 * 60 * 60)
    (htyp : p.typ ≠ some "refresh") :
    (get_auth_context s none (create_access_token s p now) t =
      .ok (.line (p.user_id.getD "") (p.shop_id.getD "") p.role p.provider)) ∧
    (refresh_access_token s (some (create_refresh_token s p now)) t =
      .ok (create_access_token s (refreshSubject p) t)
         (create_refresh_token s (refreshSubject p) t)) ∧
    ((refreshSubject p).user_id = p.user_id ∧ (refreshSubject p).shop_id = p.shop_id ∧
     (refreshSubject p).role = p.role ∧ (refreshSubject p).provider = p.provider) ∧
    (refresh_access_token s (some (create_access_token s p now)) t = .unauthorized) ∧
    (get_auth_context s none (create_refresh_token s p now) t ≠ .unauthorized) := by
  refine ⟨?_, ?_, ⟨rfl, rfl, rfl, rfl⟩, ?_, ?_⟩
  · unfold get_auth_context jwtDecode create_access_token
    simp [hu, hs, hexpA]
  · have hdec : jwtDecode (create_refresh_token s p now) s.jwt_secret s.jwt_issuer t
        = some { p with typ := some "refresh" } := by
      unfold jwtDecode create_refresh_token
      exact if_pos ⟨rfl, rfl, hexpR⟩
    rw [refresh_access_token_some, hdec]
    rfl
  · unfold refresh_access_token jwtDecode create_access_token
    simp [hexpA, htyp]
  · unfold get_auth_context jwtDecode create_refresh_token
    simp [hu, hs, hexpR]

/-- C10 witness: the amended round-trip law evaluated at a concrete
subject payload. -/
theorem C10_roundtrip_amended_witness :
    get_auth_context egSettings none (create_access_token egSettings egSubject 0) 5 =
      .ok (.line (egSubject.user_id.getD "") (egSubject.shop_id.getD "")
            egSubject.role egSubject.provider) :=
  (C10_roundtrip_amended egSettings egSubject 0 5 (by decide) (by decide)
    (by decide) (by decide) (by decide)).1

end MIA
